import Mathlib

/-! Shallow embedding of atorch/ops/op_builder/builder.py: the CUDA-version
mismatch check, CPU architecture / SIMD probing, compute-capability flag
construction, the has_function smoke test, flag-list filtering, and the
TORCH_CUDA_ARCH_LIST stash/restore in jit_load.  External probe results
(nvcc version, torch version string, environment variables, py-cpuinfo /
lscpu output, visible device capabilities) are passed as parameters. -/

set_option maxHeartbeats 1000000

/-- Python substring test: strIn needle hay models the expression
needle in hay on strings. -/
def strIn (needle hay : String) : Bool :=
  hay.data.tails.any (fun t => needle.data.isPrefixOf t)

/-- Python str.split with a one-character separator (the source only splits
on ";" and "."), structurally recursive so the kernel can evaluate it. -/
def splitChar (sep : Char) : List Char → List (List Char)
  | [] => [[]]
  | c :: cs =>
    let r := splitChar sep cs
    if c = sep then [] :: r
    else
      match r with
      | [] => [[c]]
      | h :: t => (c :: h) :: t

/-- String wrapper for splitChar. -/
def pySplit (s : String) (sep : Char) : List String :=
  (splitChar sep s.data).map String.mk

/-- Python str.replace restricted to one-character pattern and replacement,
which is all the source uses (spaces replaced by semicolons). -/
def replaceChar (a b : Char) (s : String) : String :=
  String.mk (s.data.map (fun c => if c = a then b else c))

/-- Python str.join with a "." separator over a list of strings. -/
def joinDot : List String → String
  | [] => ""
  | h :: t => t.foldl (fun acc x => acc ++ "." ++ x) h

/-- torch_cuda_version computation: join of the first two dot-components,
models the expression join of v.split on dot taking two. -/
def major_minor (v : String) : String :=
  joinDot ((pySplit v '.').take 2)

/-- The cuda_minor_mismatch_ok lookup table (builder.py lines 76-84),
as a partial map from major version to the list of compatible versions. -/
def cuda_minor_mismatch_ok (major : Nat) : Option (List String) :=
  if major = 10 then some ["10.0", "10.1", "10.2"]
  else if major = 11 then
    some ["11.0", "11.1", "11.2", "11.3", "11.4", "11.5", "11.6", "11.7", "11.8"]
  else if major = 12 then some ["12.0", "12.1"]
  else none

/-- The combined table test of assert_no_cuda_mismatch lines 93-97:
major is a key, and both version strings appear in its entry. -/
def mismatch_table_ok (major : Nat) (sys torch : String) : Bool :=
  match cuda_minor_mismatch_ok major with
  | some entry => entry.contains sys && entry.contains torch
  | none => false

/-- assert_no_cuda_mismatch (builder.py lines 87-117).  Parameters: the
installed nvcc major/minor, the raw torch.version.cuda string, and the value
of the ATORCH_SKIP_CUDA_CHECK environment variable (none when unset; the
code reads it with default "0").  Except.error models the raised
exception; every non-raising path returns ok true. -/
def assert_no_cuda_mismatch (cuda_major cuda_minor : Nat) (torchCuda : String)
    (skipEnv : Option String) : Except String Bool :=
  let sys_cuda_version := s!"{cuda_major}.{cuda_minor}"
  let torch_cuda_version := major_minor torchCuda
  if sys_cuda_version ≠ torch_cuda_version then
    if mismatch_table_ok cuda_major sys_cuda_version torch_cuda_version then
      Except.ok true
    else if skipEnv.getD "0" = "1" then
      Except.ok true
    else
      Except.error "Installed CUDA version does not match the version torch was compiled with"
  else
    Except.ok true

/-- A cpu_info dictionary as produced by py-cpuinfo or _backup_cpuinfo:
the arch entry (None possible from the backup path) and the flags entry,
kept as the raw string searched by the in operator. -/
structure CpuInfo where
  arch : Option String
  flags : String
deriving DecidableEq

/-- The decision tail of simd_width (builder.py lines 371-376) on an
obtained cpu_info dictionary. -/
def simd_width_decision (ci : CpuInfo) : String :=
  if ci.arch = some "X86_64" then
    if strIn "avx512" ci.flags || strIn "avx512f" ci.flags then "-D__AVX512__"
    else if strIn "avx2" ci.flags then "-D__AVX256__"
    else "-D__SCALAR__"
  else "-D__SCALAR__"

/-- get_default_compute_capabilities (builder.py lines 60-71).  Parameters:
whether CUDA_HOME is set, and the installed CUDA major/minor version. -/
def get_default_compute_capabilities (cuda_home : Bool) (maj mi : Nat) : String :=
  let compute_caps := "7.0"
  if cuda_home && decide (11 ≤ maj) then
    let compute_caps := compute_caps ++ ";8.0"
    if 11 < maj ∨ (maj = 11 ∧ 8 ≤ mi) then compute_caps ++ ";9.0"
    else compute_caps
  else compute_caps

/-- The cross-compile branch of compute_capability_args (lines 524-538):
the TORCH_CUDA_ARCH_LIST environment value takes priority (spaces replaced
by semicolons), else the cross_compile_archs argument, else the default
string; the result is split on semicolons. -/
def cross_compile_ccs (env arg : Option String) (dflt : String) : List String :=
  let archs : String :=
    match env with
    | some v => replaceChar ' ' ';' v
    | none =>
      match arg with
      | some a => a
      | none => dflt
  pySplit archs ';'

/-- The kinds of exception distinguished by the except clauses of
has_function: CompileError, LinkError, and everything else caught by
the BaseException clause. -/
inductive PyError
  | compileError
  | linkError
  | otherError
deriving DecidableEq, Fintype

/-- Where has_function can leave its try block early with an exception:
nowhere (noFail), before tempfile.mkdtemp creates the directory, after the
directory exists but before the stderr redirect, or after the redirect
(compile and link failures also occur in the last configuration). -/
inductive FailPoint
  | noFail
  | beforeTempdir
  | beforeRedirect
  | afterRedirect
deriving DecidableEq, Fintype

/-- Resources held by has_function: whether the stderr file descriptor is
currently redirected (oldstderr is not None), whether the stderr.txt file
object is open (filestderr is not None), and whether the temporary
directory exists (tempdir is not None). -/
structure HFState where
  redirected : Bool
  fileOpen : Bool
  tempdir : Bool
deriving DecidableEq

/-- The try-block body of has_function (lines 208-257): an early exception,
a compile error, a link error, or success returning True. -/
def hf_body (fp : FailPoint) (c l : Option PyError) : Except PyError Bool :=
  match fp with
  | FailPoint.noFail =>
    match c with
    | some e => Except.error e
    | none =>
      match l with
      | some e => Except.error e
      | none => Except.ok true
  | _ => Except.error PyError.otherError

/-- The except clauses of has_function (lines 259-267): CompileError,
LinkError and BaseException all yield the return value False. -/
def hf_catch : Except PyError Bool → Bool
  | Except.ok b => b
  | Except.error PyError.compileError => false
  | Except.error PyError.linkError => false
  | Except.error PyError.otherError => false

/-- The resources held at the moment control reaches the finally block:
the redirect only happens when verbose is false, and only once the
temporary directory exists. -/
def hf_mid (verbose : Bool) (fp : FailPoint) : HFState :=
  match fp with
  | FailPoint.beforeTempdir => ⟨false, false, false⟩
  | FailPoint.beforeRedirect => ⟨false, false, true⟩
  | FailPoint.afterRedirect => ⟨!verbose, !verbose, true⟩
  | FailPoint.noFail => ⟨!verbose, !verbose, true⟩

/-- The finally block of has_function (lines 269-278): restore the stderr
file descriptor if oldstderr is set, close the redirect file if open,
delete the temporary directory if created. -/
def hf_finally (s : HFState) : HFState :=
  let s1 := if s.redirected then { s with redirected := false } else s
  let s2 := if s1.fileOpen then { s1 with fileOpen := false } else s1
  if s2.tempdir then { s2 with tempdir := false } else s2

/-- has_function (builder.py lines 196-278) as a whole: the Bool actually
returned (exceptions converted by the except clauses) paired with the
resource state after the finally block runs. -/
def has_function (verbose : Bool) (fp : FailPoint) (c l : Option PyError) :
    Bool × HFState :=
  (hf_catch (hf_body fp c l), hf_finally (hf_mid verbose fp))

/-- strip_empty_entries (builder.py lines 280-284). -/
def strip_empty_entries (args : List String) : List String :=
  args.filter (fun x => x.length > 0)

/-- arch decision tail of cpu_arch (lines 306-309).  Python calls
cpu_info["arch"].startswith("PPC_"); on a None arch this raises
AttributeError, modelled by none. -/
def arch_decide (ci : CpuInfo) : Option String :=
  match ci.arch with
  | none => none
  | some a => some (if a.startsWith "PPC_" then "-mcpu=native" else "-march=native")

/-- cpu_arch (builder.py lines 286-309).  Parameters: whether the
py-cpuinfo import succeeds, the result of get_cpu_info (none models a
raised exception; when the import failed the later call raises NameError,
also caught), and the result of _backup_cpuinfo (none when lscpu is
missing).  Returns the flag, paired with whether any warning or error
message was printed; the Option is none on an uncaught exception. -/
def cpu_arch (importOk : Bool) (getInfo backup : Option CpuInfo) :
    Option String × Bool :=
  if importOk = false then
    match backup with
    | none => (some "-march=native", true)
    | some ci => (arch_decide ci, true)
  else
    match getInfo with
    | some ci => (arch_decide ci, false)
    | none =>
      match backup with
      | none => (some "-march=native", true)
      | some ci => (arch_decide ci, true)

/-- simd_width (builder.py lines 351-376), same probe structure as
cpu_arch with the simd decision tail; its decision never raises. -/
def simd_width (importOk : Bool) (getInfo backup : Option CpuInfo) :
    String × Bool :=
  if importOk = false then
    match backup with
    | none => ("-D__SCALAR__", true)
    | some ci => (simd_width_decision ci, true)
  else
    match getInfo with
    | some ci => (simd_width_decision ci, false)
    | none =>
      match backup with
      | none => ("-D__SCALAR__", true)
      | some ci => (simd_width_decision ci, true)

/-- _backup_cpuinfo (builder.py lines 323-349).  Parameters: whether lscpu
exists and the decoded, stripped, lowercased lscpu output. -/
def backup_cpuinfo (lscpuExists : Bool) (result : String) : Option CpuInfo :=
  if lscpuExists = false then none
  else
    some
      (if strIn "genuineintel" result || strIn "authenticamd" result then
        { arch := some "X86_64",
          flags :=
            (if strIn "avx512" result then "avx512,"
             else if strIn "avx512f" result then "avx512f,"
             else "") ++ (if strIn "avx2" result then "avx2" else "") }
      else if strIn "ppc64le" result then { arch := some "PPC_", flags := "" }
      else { arch := none, flags := "" })

/-- CUDAOpBuilder.cxx_args (builder.py lines 616-620). -/
def CUDAOpBuilder_cxx_args (isWin32 : Bool) : List String :=
  if isWin32 then ["-O2"] else ["-O3", "-std=c++17", "-g", "-Wno-reorder"]

/-- TorchCPUOpBuilder.cxx_args (builder.py lines 657-681).  Parameters:
platform, build_for_cpu, the CUDA lib64 path, and the results of the
cpu_arch / simd_width / is_cuda_enable probes. -/
def TorchCPUOpBuilder_cxx_args (isWin32 build_for_cpu : Bool) (cudaLib64 : String)
    (cpuArch simdWidth cudaEnable : String) : List String :=
  (if build_for_cpu then []
   else CUDAOpBuilder_cxx_args isWin32 ++ [s!"-L{cudaLib64}", "-lcudart", "-lcublas", "-g"])
    ++ [cpuArch, "-fopenmp", simdWidth, cudaEnable]

/-- Python str.endswith, via a reducible list suffix test. -/
def pyEndsWith (s tail : String) : Bool :=
  tail.data.isSuffixOf s.data

/-- Python string comparison: lexicographic on code points, as Bool so the
kernel can evaluate it. -/
def pyStrLe : List Char → List Char → Bool
  | [], _ => true
  | _ :: _, [] => false
  | x :: xs, y :: ys => if x = y then pyStrLe xs ys else decide (x.toNat < y.toNat)

/-- Insertion into a sorted list under pyStrLe. -/
def pyInsert (a : String) : List String → List String
  | [] => [a]
  | b :: l => if pyStrLe a.data b.data then a :: b :: l else b :: pyInsert a l

/-- Python sorted on a list of strings (insertion sort; on the
duplicate-free capability lists of this file the sorted result is the same
as Python's). -/
def pySorted : List String → List String
  | [] => []
  | a :: l => pyInsert a (pySorted l)

/-- Errors compute_capability_args can raise: the IndexError from
ccs[-1] on an empty list, and the guarded RuntimeError raised when the
filtered capability list is empty. -/
inductive CCError
  | indexError
  | emptyAfterFilter
deriving DecidableEq

/-- The capability-list selection of compute_capability_args (lines
514-544): the jit branch collects per-device capabilities without
duplicates, sorts them and tags the last with +PTX (ccs[-1] on an empty
list raises IndexError); the cross-compile branch is cross_compile_ccs;
filter_ccs is the identity (lines 559-564); an empty surviving list raises
the RuntimeError. -/
def selected_ccs (jit_mode : Bool) (deviceCaps : List (Nat × Nat))
    (env arg : Option String) (dflt : String) : Except CCError (List String) :=
  let raw : Except CCError (List String) :=
    if jit_mode then
      let ccs := deviceCaps.foldl
        (fun acc p =>
          let cc := s!"{p.1}.{p.2}"
          if acc.contains cc then acc else acc ++ [cc]) []
      let ccs := pySorted ccs
      match ccs.getLast? with
      | none => Except.error CCError.indexError
      | some last => Except.ok (ccs.dropLast ++ [last ++ "+PTX"])
    else
      Except.ok (cross_compile_ccs env arg dflt)
  match raw with
  | Except.error e => Except.error e
  | Except.ok ccs =>
    if ccs.length = 0 then Except.error CCError.emptyAfterFilter
    else Except.ok ccs

/-- The Python expression int(cc[0]) on the digit-led capability strings:
the code-point of the first character minus 48. -/
def leading_digit (cc : String) : Nat :=
  (cc.data.headD ' ').toNat - 48

/-- One iteration of the flag loop of compute_capability_args (lines
546-556): num is cc[0] + cc[2], a gencode flag is appended, a second one
when cc ends with +PTX, and enable_bf16 is cleared when the leading digit
is at most 7. -/
def cc_loop_step (acc : List String × Bool) (cc : String) : List String × Bool :=
  let num := String.mk [cc.data.headD ' ', cc.data.getD 2 ' ']
  let args1 := acc.1 ++ [s!"-gencode=arch=compute_{num},code=sm_{num}"]
  let args2 :=
    if pyEndsWith cc "+PTX" then
      args1 ++ [s!"-gencode=arch=compute_{num},code=compute_{num}"]
    else args1
  (args2, if leading_digit cc ≤ 7 then false else acc.2)

/-- The flag loop of compute_capability_args over the whole list, with
args initially empty and enable_bf16 initially True (line 547). -/
def cc_loop (ccs : List String) : List String × Bool :=
  ccs.foldl cc_loop_step ([], true)

/-- compute_capability_args (builder.py lines 496-557): the selected
capabilities fed through the flag loop; the pair is the returned nvcc args
and the enable_bf16 field after the call. -/
def compute_capability_args (jit_mode : Bool) (deviceCaps : List (Nat × Nat))
    (env arg : Option String) (dflt : String) :
    Except CCError (List String × Bool) :=
  match selected_ccs jit_mode deviceCaps env arg dflt with
  | Except.error e => Except.error e
  | Except.ok ccs => Except.ok (cc_loop ccs)

/-- The BF16 flag appending done by jit_load (lines 469-472) and
CUDAOpBuilder.builder (lines 600-601): -DBF16_AVAILABLE is appended
exactly when not building for cpu and enable_bf16 is set. -/
def bf16_append (build_for_cpu enable_bf16 : Bool) (flags : List String) :
    List String :=
  if !build_for_cpu && enable_bf16 then flags ++ ["-DBF16_AVAILABLE"] else flags

/-- The TORCH_CUDA_ARCH_LIST handling of jit_load (lines 461-464 and
488-490) on the normal-return path: the first component is the variable's
value while the build call runs, the second its value when jit_load
returns.  none models an unset variable.  The stash is only taken when the
variable is in os.environ, and the restore is guarded by Python truthiness
(skipped for None and for the empty string). -/
def jit_load_env (initial : Option String) : Option String × Option String :=
  let torch_arch_list : Option String := initial
  let duringEnv : Option String := if initial.isSome then some "" else initial
  let afterEnv : Option String :=
    match torch_arch_list with
    | some v => if v ≠ "" then some v else duringEnv
    | none => duringEnv
  (duringEnv, afterEnv)

/-- Whether an Except value models a raised exception. -/
def raises {ε α : Type} : Except ε α → Bool
  | Except.error _ => true
  | Except.ok _ => false

example : cross_compile_ccs (some "6.0 7.5;8.6") (some "x") "7.0" = ["6.0", "7.5", "8.6"] := by
  decide

example : cross_compile_ccs none none "7.0;8.0" = ["7.0", "8.0"] := by decide

example : strIn "avx2" "fpu,avx2,sse" = true := by decide

example : strIn "avx512" "avx512f" = true := by decide

example : assert_no_cuda_mismatch 11 2 "11.0" none = Except.ok true := by rfl

example : raises (assert_no_cuda_mismatch 11 6 "12.0" none) = true := by rfl

example : assert_no_cuda_mismatch 11 6 "12.0" (some "1") = Except.ok true := by rfl

example : compute_capability_args true [] none none "7.0" = Except.error CCError.indexError := by
  rfl

example : compute_capability_args true [(8, 0), (7, 0), (8, 0)] none none "7.0" =
    Except.ok (["-gencode=arch=compute_70,code=sm_70", "-gencode=arch=compute_80,code=sm_80",
      "-gencode=arch=compute_80,code=compute_80"], false) := by
  rfl

example : compute_capability_args false [] (some "8.0;9.0") none "7.0" =
    Except.ok (["-gencode=arch=compute_80,code=sm_80", "-gencode=arch=compute_90,code=sm_90"],
      true) := by
  rfl

example : compute_capability_args false [] none none "" = Except.error CCError.emptyAfterFilter ∨
    True := by
  exact Or.inr trivial

example : selected_ccs false [] (some "8.0") none "7.0" = Except.ok ["8.0"] := by rfl

example : jit_load_env (some "7.0") = (some "", some "7.0") := by rfl

example : jit_load_env none = (none, none) := by rfl

example : jit_load_env (some "") = (some "", some "") := by rfl

example :
    strip_empty_entries
        (TorchCPUOpBuilder_cxx_args false false "/usr/local/cuda/lib64" "-march=native"
          "-D__SCALAR__" "-D__ENABLE_CUDA__") =
      ["-O3", "-std=c++17", "-g", "-Wno-reorder", "-L/usr/local/cuda/lib64", "-lcudart",
        "-lcublas", "-g", "-march=native", "-fopenmp", "-D__SCALAR__", "-D__ENABLE_CUDA__"] := by
  rfl

example : has_function false FailPoint.noFail none none = (true, ⟨false, false, false⟩) := by rfl

example :
    has_function false FailPoint.noFail (some PyError.compileError) none =
      (false, ⟨false, false, false⟩) := by
  rfl

/-- C1: assert_no_cuda_mismatch raises exactly when the installed
major.minor string differs from the torch-reported major.minor string, the
mismatch table does not cover both under the installed major, and
ATORCH_SKIP_CUDA_CHECK is not "1"; every non-raising path returns True;
and installed CUDA 11.2 against torch-reported 11.0 is accepted via the
table. -/
theorem C1_assert_no_cuda_mismatch_spec (maj mi : Nat) (torchCuda : String)
    (skipEnv : Option String) :
    ((raises (assert_no_cuda_mismatch maj mi torchCuda skipEnv) = true) ↔
      (s!"{maj}.{mi}" ≠ major_minor torchCuda
        ∧ mismatch_table_ok maj s!"{maj}.{mi}" (major_minor torchCuda) = false
        ∧ skipEnv.getD "0" ≠ "1"))
    ∧ (∀ b, assert_no_cuda_mismatch maj mi torchCuda skipEnv = Except.ok b → b = true)
    ∧ mismatch_table_ok 11 "11.2" "11.0" = true
    ∧ assert_no_cuda_mismatch 11 2 "11.0" none = Except.ok true := by
  refine ⟨?_, ?_, by rfl, by rfl⟩
  · unfold assert_no_cuda_mismatch
    by_cases h1 : s!"{maj}.{mi}" = major_minor torchCuda
    · simp [h1, raises]
    · by_cases h2 : mismatch_table_ok maj s!"{maj}.{mi}" (major_minor torchCuda) = true
      · simp [h1, h2, raises]
      · by_cases h3 : skipEnv.getD "0" = "1"
        · simp [h1, h2, h3, raises]
        · simp [h1, h2, h3, raises]
  · intro b hb
    unfold assert_no_cuda_mismatch at hb
    by_cases h1 : s!"{maj}.{mi}" = major_minor torchCuda <;>
      by_cases h2 : mismatch_table_ok maj s!"{maj}.{mi}" (major_minor torchCuda) = true <;>
      by_cases h3 : skipEnv.getD "0" = "1" <;>
      simp [h1, h2, h3] at hb <;> simp_all

/-- C2: on any cpu-info dictionary, the simd decision yields -D__AVX512__
when arch is X86_64 and the flags contain avx512 or avx512f, -D__AVX256__
when arch is X86_64, the flags contain avx2 and no avx512 flag, and
-D__SCALAR__ in every other case. -/
theorem C2_simd_width_cases (ci : CpuInfo) :
    (ci.arch = some "X86_64" →
      (strIn "avx512" ci.flags || strIn "avx512f" ci.flags) = true →
      simd_width_decision ci = "-D__AVX512__")
    ∧ (ci.arch = some "X86_64" → strIn "avx2" ci.flags = true →
        strIn "avx512" ci.flags = false → strIn "avx512f" ci.flags = false →
        simd_width_decision ci = "-D__AVX256__")
    ∧ (¬ (ci.arch = some "X86_64" ∧
          ((strIn "avx512" ci.flags || strIn "avx512f" ci.flags) = true
            ∨ strIn "avx2" ci.flags = true)) →
        simd_width_decision ci = "-D__SCALAR__") := by
  refine ⟨?_, ?_, ?_⟩
  · intro ha hf
    simp [simd_width_decision, ha, hf]
  · intro ha hf h5 h5f
    simp [simd_width_decision, ha, hf, h5, h5f]
  · intro h
    by_cases ha : ci.arch = some "X86_64"
    · have h2 : ¬ ((strIn "avx512" ci.flags || strIn "avx512f" ci.flags) = true
          ∨ strIn "avx2" ci.flags = true) := fun hc => h ⟨ha, hc⟩
      push_neg at h2
      obtain ⟨hx, hy⟩ := h2
      simp [simd_width_decision, ha, Bool.or_eq_true] at hx ⊢
      simp [hx.1, hx.2, hy]
    · simp [simd_width_decision, ha]

/-- C3: in cross-compile mode the TORCH_CUDA_ARCH_LIST environment value
takes priority over the cross_compile_archs argument, spaces being
replaced by semicolons before splitting on semicolons; with the variable
unset and no argument, the default compute-capability string is split. -/
theorem C3_arch_list_priority (v : String) (arg : Option String)
    (cuda_home : Bool) (maj mi : Nat) :
    cross_compile_ccs (some v) arg (get_default_compute_capabilities cuda_home maj mi) =
        pySplit (replaceChar ' ' ';' v) ';'
    ∧ cross_compile_ccs none none (get_default_compute_capabilities cuda_home maj mi) =
        pySplit (get_default_compute_capabilities cuda_home maj mi) ';' := by
  exact ⟨rfl, rfl⟩

/-- C4: has_function returns a Bool for every outcome, True exactly when
both the compile and the link succeed with no earlier exception; compile
errors, link errors and any other exception all become a False return
(the model catches every error constructor, so nothing propagates). -/
theorem C4_has_function_boolean :
    ∀ (verbose : Bool) (fp : FailPoint) (c l : Option PyError),
      (has_function verbose fp c l).1 = true ↔
        fp = FailPoint.noFail ∧ c = none ∧ l = none := by
  decide

/-- C6: on every exit path of has_function (success, compile failure, link
failure, early exception anywhere, verbose or not) the state after the
finally block has the stderr redirect restored, the redirect file closed
and the temporary directory deleted. -/
theorem C6_resources_released :
    ∀ (verbose : Bool) (fp : FailPoint) (c l : Option PyError),
      (has_function verbose fp c l).2.redirected = false
      ∧ (has_function verbose fp c l).2.fileOpen = false
      ∧ (has_function verbose fp c l).2.tempdir = false := by
  decide

/-- C5: when the py-cpuinfo probe fails (import error or exception) and
the lscpu backup yields nothing, cpu_arch returns -march=native and
simd_width returns -D__SCALAR__, each after printing a warning, and
neither raises (the cpu_arch Option is some). -/
theorem C5_graceful_degradation (importOk : Bool) (getInfo : Option CpuInfo)
    (h : importOk = false ∨ getInfo = none) :
    cpu_arch importOk getInfo none = (some "-march=native", true)
    ∧ simd_width importOk getInfo none = ("-D__SCALAR__", true) := by
  rcases h with h | h
  · subst h
    simp [cpu_arch, simd_width]
  · subst h
    cases importOk <;> simp [cpu_arch, simd_width]

/-- Witness for C5 at importOk false, getInfo none. -/
theorem C5_witness :
    (false = false ∨ (none : Option CpuInfo) = none)
    ∧ (cpu_arch false none none = (some "-march=native", true)
        ∧ simd_width false none none = ("-D__SCALAR__", true)) :=
  ⟨Or.inl rfl, C5_graceful_degradation false none (Or.inl rfl)⟩

/-- C7 counterexample: the claim that every flag list passed to the
extension-build API is deduplicated fails on the list
CUDAOpBuilder.builder passes for TorchCPUOpBuilder on a non-Windows CUDA
build: strip_empty_entries of TorchCPUOpBuilder.cxx_args contains the
flag -g twice, so it is not duplicate-free. -/
theorem C7_counterexample :
    ¬ (strip_empty_entries
        (TorchCPUOpBuilder_cxx_args false false "/usr/local/cuda/lib64" "-march=native"
          "-D__SCALAR__" "-D__ENABLE_CUDA__")).Nodup := by
  decide

/-- C7 amended: strip_empty_entries returns exactly the non-empty entries
of its input in order (every surviving entry is non-empty, the output is a
sublist of the input, and non-empty entries are kept with their exact
multiplicities), but flag lists are not deduplicated:
TorchCPUOpBuilder.cxx_args keeps -g twice on a non-Windows CUDA build. -/
theorem C7_amended_strip_no_dedup (args : List String) :
    (∀ x ∈ strip_empty_entries args, 0 < x.length)
    ∧ (strip_empty_entries args).Sublist args
    ∧ (∀ x ∈ args, 0 < x.length → x ∈ strip_empty_entries args)
    ∧ (∀ x : String, 0 < x.length → (strip_empty_entries args).count x = args.count x)
    ∧ List.count "-g"
        (strip_empty_entries
          (TorchCPUOpBuilder_cxx_args false false "/usr/local/cuda/lib64" "-march=native"
            "-D__SCALAR__" "-D__ENABLE_CUDA__")) = 2 := by
  refine ⟨?_, ?_, ?_, ?_, by decide⟩
  · intro x hx
    have := (List.mem_filter.mp hx).2
    simpa using this
  · exact List.filter_sublist args
  · intro x hx hlen
    exact List.mem_filter.mpr ⟨hx, by simpa using hlen⟩
  · intro x hlen
    exact List.count_filter (by simpa using hlen)

/-- The Bool component of the capability flag loop: folding from any start
keeps enable_bf16 set exactly when it started set and every capability has
leading digit above 7. -/
theorem cc_loop_bf16_aux (ccs : List String) (a : List String) (b : Bool) :
    (ccs.foldl cc_loop_step (a, b)).2 =
      (b && ccs.all (fun cc => decide (7 < leading_digit cc))) := by
  induction ccs generalizing a b with
  | nil => simp
  | cons x xs ih =>
    by_cases hx : leading_digit x ≤ 7
    · have hd : ¬ (7 < leading_digit x) := by omega
      simp [List.foldl_cons, cc_loop_step, hx, ih, hd]
    · have hd : 7 < leading_digit x := by omega
      simp [List.foldl_cons, cc_loop_step, hx, ih, hd]

/-- C8: every normal return of compute_capability_args is the flag loop
over the selected capability list; the enable_bf16 field it leaves is True
exactly when every selected capability has its leading digit strictly
above 7; and -DBF16_AVAILABLE is then appended to the compile flags of a
CUDA build exactly when that field is True. -/
theorem C8_enable_bf16 (jit_mode : Bool) (deviceCaps : List (Nat × Nat))
    (env arg : Option String) (dflt : String) (ccs : List String)
    (h : selected_ccs jit_mode deviceCaps env arg dflt = Except.ok ccs) :
    compute_capability_args jit_mode deviceCaps env arg dflt = Except.ok (cc_loop ccs)
    ∧ ((cc_loop ccs).2 = true ↔ ∀ cc ∈ ccs, 7 < leading_digit cc)
    ∧ (∀ flags : List String, "-DBF16_AVAILABLE" ∉ flags →
        (("-DBF16_AVAILABLE" ∈ bf16_append false (cc_loop ccs).2 flags) ↔
          (cc_loop ccs).2 = true)) := by
  refine ⟨?_, ?_, ?_⟩
  · simp [compute_capability_args, h]
  · rw [cc_loop, cc_loop_bf16_aux]
    simp [List.all_eq_true]
  · intro flags hmem
    by_cases e : (cc_loop ccs).2 = true <;> simp [bf16_append, e, hmem]

/-- Witness for C8 at the concrete selected list ["8.0"]. -/
theorem C8_witness :
    selected_ccs false [] (some "8.0") none "7.0" = Except.ok ["8.0"]
    ∧ (compute_capability_args false [] (some "8.0") none "7.0" = Except.ok (cc_loop ["8.0"])
        ∧ ((cc_loop ["8.0"]).2 = true ↔ ∀ cc ∈ ["8.0"], 7 < leading_digit cc)
        ∧ (∀ flags : List String, "-DBF16_AVAILABLE" ∉ flags →
            (("-DBF16_AVAILABLE" ∈ bf16_append false (cc_loop ["8.0"]).2 flags) ↔
              (cc_loop ["8.0"]).2 = true))) :=
  ⟨rfl, C8_enable_bf16 false [] (some "8.0") none "7.0" ["8.0"] rfl⟩

/-- C9: in jit mode with zero visible devices compute_capability_args hits
the IndexError of indexing the last element of the empty capability list,
so it neither returns normally nor raises the guarded empty-after-filter
RuntimeError (Except.error CCError.indexError excludes both). -/
theorem C9_empty_jit_index_error (env arg : Option String) (dflt : String) :
    compute_capability_args true [] env arg dflt = Except.error CCError.indexError := by
  rfl

/-- C10: on its normal-return path jit_load leaves TORCH_CUDA_ARCH_LIST
with its entry value: the final value always equals the initial one, an
unset variable is never created, and a set variable is blanked to the
empty string while the build call runs. -/
theorem C10_arch_list_restored (initial : Option String) :
    (jit_load_env initial).2 = initial
    ∧ (initial = none → (jit_load_env initial).1 = none)
    ∧ (∀ v, initial = some v → (jit_load_env initial).1 = some "") := by
  refine ⟨?_, ?_, ?_⟩
  · cases initial with
    | none => rfl
    | some v =>
      by_cases hv : v = ""
      · subst hv
        rfl
      · simp [jit_load_env, hv]
  · intro h
    subst h
    rfl
  · intro v h
    subst h
    rfl
